import Mathlib

/-!
Shallow embedding of the regulus_back service (FastAPI + SQLAlchemy backend for a
chat application) and verification of its specification claims.

The database session is modelled as an explicit record of tables (lists of rows);
every ORM classmethod from `src/db/models.py` becomes a pure function from a `DB`
to a `DB` (and possibly a result).  JWT handling from `src/auth/tools.py` is
modelled with a `Jwt` record carrying the payload together with the signing key:
signature verification is key equality.  Remote OpenAI calls are modelled by
oracle parameters (the values the remote side would return) and, where a claim is
about which remote calls happen, by an explicit trace of `RemoteCall`s.
Route handlers from `src/auth/router.py` and `src/chat/router.py` become
functions returning `Except RouteError` results together with the updated `DB`.
-/

namespace Regulus

/-- Timestamps (`datetime.utcnow()`) are modelled as natural numbers. -/
abbrev Time := Nat

/-- A signed JWT as produced by `jose.jwt.encode`: the claims (`sub`, `exp`)
together with the key it was signed with.  A signature check is modelled as
comparing the signing key with the verification key. -/
structure Jwt where
  sub : Option String
  exp : Time
  key : String
  deriving DecidableEq, Repr

/-- Error outcome of a route handler: either a raised `HTTPException` with its
status code and detail, or an uncaught pydantic `ValidationError` (which the
framework surfaces as a generic 500 response). -/
inductive RouteError where
  | http (status : Nat) (detail : String)
  | validationError
  deriving DecidableEq, Repr

abbrev Res (α : Type) := Except RouteError α

/-- Status code of a handler outcome, `none` on success.  An uncaught
`ValidationError` is reported by the framework as a 500. -/
def Res.statusOf {α : Type} : Res α → Option Nat
  | .ok _ => none
  | .error (.http s _) => some s
  | .error .validationError => some 500

/-! ## Configuration (src/configs.py), modelled with fixed values -/

def ACCESS_TOKEN_SECRET_KEY : String := "access-secret"
def REFRESH_TOKEN_SECRET_KEY : String := "refresh-secret"
def ACCESS_TOKEN_EXPIRE_MINUTES : Nat := 30
def REFRESH_TOKEN_EXPIRE_DAYS : Nat := 7

/-- Access-token lifetime in seconds (`timedelta(minutes=ACCESS_TOKEN_EXPIRE_MINUTES)`). -/
def accessTokenLifetime : Time := ACCESS_TOKEN_EXPIRE_MINUTES * 60

/-- Refresh-token lifetime in seconds (`timedelta(days=REFRESH_TOKEN_EXPIRE_DAYS)`). -/
def refreshTokenLifetime : Time := REFRESH_TOKEN_EXPIRE_DAYS * 24 * 60 * 60

/-! ## Data model (src/db/models.py) -/

/-- Row of the `users` table. -/
structure User where
  id : Nat
  username : String
  email : Option String
  email_verified : Bool
  refresh_token : Option Jwt
  hashed_password : String
  deriving DecidableEq, Repr

/-- Row of the `chats` table. -/
structure Chat where
  id : Nat
  user_id : Nat
  title : String
  created_at : Time
  updated_at : Time
  thread_id : Option String
  deriving DecidableEq, Repr

/-- Row of the `messages` table. -/
structure Message where
  id : Nat
  chat_id : Nat
  content : String
  created_at : Time
  is_sent_by_bot : Bool
  deriving DecidableEq, Repr

/-- Row of the `files` table. -/
structure File where
  id : Nat
  file_id : String
  filename : String
  created_at : Time
  vector_store_id : String
  chat_id : Nat
  deriving DecidableEq, Repr

/-- Row of the `vector_stores` table. -/
structure VectorStore where
  id : Nat
  user_id : Nat
  vector_store_id : String
  deriving DecidableEq, Repr

/-- The database state: one list of rows per table. -/
structure DB where
  users : List User
  chats : List Chat
  messages : List Message
  files : List File
  vector_stores : List VectorStore
  deriving DecidableEq, Repr

/-! ## ORM operations (src/db/models.py) -/

/-- `User.get_by_username`: `SELECT * FROM users WHERE username = :u` (single row or none). -/
def User.get_by_username (db : DB) (username : String) : Option User :=
  db.users.find? (fun u => u.username = username)

/-- `User.get_by_email`: `SELECT * FROM users WHERE email = :e`. -/
def User.get_by_email (db : DB) (email : String) : Option User :=
  db.users.find? (fun u => u.email = some email)

/-- `User.create` (models.py lines 56-89): rejects a duplicate username with
`HTTPException(400)`, then a duplicate email (when an email is given) with
`HTTPException(400)`, otherwise inserts a row; `email_verified` takes its column
default `False` and `refresh_token` starts as NULL.  `newId` models the primary
key assigned by the database on flush. -/
def User.create (db : DB) (username : String) (hashed_password : String)
    (email : Option String) (newId : Nat) : Res (User × DB) :=
  match User.get_by_username db username with
  | some _ => .error (.http 400 "Пользователь с таким именем уже существует")
  | none =>
    if (match email with
        | some e => (User.get_by_email db e).isSome
        | none => false) then
      .error (.http 400 "Email уже используется")
    else
      let u : User :=
        { id := newId, username := username, email := email, email_verified := false,
          refresh_token := none, hashed_password := hashed_password }
      .ok (u, { db with users := db.users ++ [u] })

/-- `User.delete_refresh_token`: `UPDATE users SET refresh_token = NULL WHERE username = :u`. -/
def User.delete_refresh_token (db : DB) (username : String) : DB :=
  { db with
    users := db.users.map (fun u =>
      if u.username = username then { u with refresh_token := none } else u) }

/-- `User.update_refresh_token`: sets the row's refresh token (identified by primary key). -/
def User.update_refresh_token (db : DB) (userId : Nat) (tok : Jwt) : DB :=
  { db with
    users := db.users.map (fun u =>
      if u.id = userId then { u with refresh_token := some tok } else u) }

/-- `User.verify_email_confirmation`: sets the row's `email_verified` flag to `True`. -/
def User.verify_email_confirmation (db : DB) (userId : Nat) : DB :=
  { db with
    users := db.users.map (fun u =>
      if u.id = userId then { u with email_verified := true } else u) }

/-- `Chat.create`: inserts a chat with `created_at = updated_at = utcnow()`. -/
def Chat.create (db : DB) (user_id : Nat) (title : String) (thread_id : Option String)
    (newId : Nat) (now : Time) : Chat × DB :=
  let c : Chat :=
    { id := newId, user_id := user_id, title := title,
      created_at := now, updated_at := now, thread_id := thread_id }
  (c, { db with chats := db.chats ++ [c] })

/-- `Chat.get_by_id`: `SELECT * FROM chats WHERE id = :cid`. -/
def Chat.get_by_id (db : DB) (chat_id : Nat) : Option Chat :=
  db.chats.find? (fun c => c.id = chat_id)

/-- `Chat.delete`: `DELETE FROM chats WHERE id = :cid`; the `messages.chat_id`
and `files.chat_id` foreign keys carry `ondelete="CASCADE"`, so the chat's
messages and file rows are removed with it. -/
def Chat.delete (db : DB) (chat_id : Nat) : DB :=
  { db with
    chats := db.chats.filter (fun c => c.id ≠ chat_id),
    messages := db.messages.filter (fun m => m.chat_id ≠ chat_id),
    files := db.files.filter (fun f => f.chat_id ≠ chat_id) }

/-- `Chat.update_title`: `UPDATE chats SET title = :t WHERE id = :cid`. -/
def Chat.update_title (db : DB) (chat_id : Nat) (new_title : String) : DB :=
  { db with
    chats := db.chats.map (fun c =>
      if c.id = chat_id then { c with title := new_title } else c) }

/-- `Chat.update_thread_id`: `UPDATE chats SET thread_id = :t WHERE id = :cid`. -/
def Chat.update_thread_id (db : DB) (chat_id : Nat) (thread_id : String) : DB :=
  { db with
    chats := db.chats.map (fun c =>
      if c.id = chat_id then { c with thread_id := some thread_id } else c) }

/-- Ordering used by `Chat.get_chats_paginated`: `ORDER BY updated_at DESC`. -/
def chatLE (a b : Chat) : Prop := b.updated_at ≤ a.updated_at

instance : DecidableRel chatLE := fun a b => Nat.decLe b.updated_at a.updated_at

instance : IsTotal Chat chatLE := ⟨fun a b => Nat.le_total b.updated_at a.updated_at⟩

instance : IsTrans Chat chatLE :=
  ⟨fun _ _ _ h₁ h₂ => Nat.le_trans h₂ h₁⟩

/-- Strict version of `chatLE` (strictly more recently updated, or equal), used
to identify the unique sorted arrangement when update times are distinct. -/
def chatGT' (a b : Chat) : Prop := b.updated_at < a.updated_at ∨ a = b

instance : IsAntisymm Chat chatGT' :=
  ⟨fun a b h₁ h₂ => by
    rcases h₁ with h₁ | h₁
    · rcases h₂ with h₂ | h₂
      · exact absurd h₁ (Nat.lt_asymm h₂)
      · exact h₂.symm
    · exact h₁⟩

/-- `Chat.get_chats_paginated` (models.py lines 159-182): the count of the user's
chats, and the user's chats ordered by `updated_at` descending with `OFFSET` then
`LIMIT` applied. -/
def Chat.get_chats_paginated (db : DB) (user_id : Nat) (limit offset : Nat) :
    List Chat × Nat :=
  let mine := db.chats.filter (fun c => c.user_id = user_id)
  (((mine.insertionSort chatLE).drop offset).take limit, mine.length)

/-- `Message.create` (models.py lines 200-223): inserts the message with
`created_at = utcnow()`, then re-reads the clock and bumps the owning chat's
`updated_at` to the second reading — if the chat exists.  The two clock readings
are the explicit parameters `tMsg` (first `utcnow()`) and `tBump` (second). -/
def Message.create (db : DB) (chat_id : Nat) (content : String) (is_sent_by_bot : Bool)
    (newId : Nat) (tMsg tBump : Time) : Message × DB :=
  let m : Message :=
    { id := newId, chat_id := chat_id, content := content,
      created_at := tMsg, is_sent_by_bot := is_sent_by_bot }
  let db₁ := { db with messages := db.messages ++ [m] }
  match Chat.get_by_id db₁ chat_id with
  | some _ =>
    (m, { db₁ with
          chats := db₁.chats.map (fun c =>
            if c.id = chat_id then { c with updated_at := tBump } else c) })
  | none => (m, db₁)

/-- Ordering used by `Message.get_chat_messages_paginated`: `ORDER BY created_at DESC`. -/
def messageLE (a b : Message) : Prop := b.created_at ≤ a.created_at

instance : DecidableRel messageLE := fun a b => Nat.decLe b.created_at a.created_at

/-- `Message.get_chat_messages_paginated`: count plus the chat's messages ordered
by `created_at` descending, windowed by offset and limit. -/
def Message.get_chat_messages_paginated (db : DB) (chat_id : Nat) (limit offset : Nat) :
    List Message × Nat :=
  let mine := db.messages.filter (fun m => m.chat_id = chat_id)
  (((mine.insertionSort messageLE).drop offset).take limit, mine.length)

/-- `File.create`: inserts a file row with `created_at = utcnow()`. -/
def File.create (db : DB) (file_id : String) (chat_id : Nat) (vector_store_id : String)
    (filename : String) (newId : Nat) (now : Time) : File × DB :=
  let f : File :=
    { id := newId, file_id := file_id, filename := filename,
      created_at := now, vector_store_id := vector_store_id, chat_id := chat_id }
  (f, { db with files := db.files ++ [f] })

/-- `File.delete`: `DELETE FROM files WHERE file_id = :fid` (matches on the
remote correlation id, not the primary key). -/
def File.delete (db : DB) (file_id : String) : DB :=
  { db with files := db.files.filter (fun f => f.file_id ≠ file_id) }

/-- `File.get_by_vector_store_id`: all file rows of a vector store. -/
def File.get_by_vector_store_id (db : DB) (vector_store_id : String) : List File :=
  db.files.filter (fun f => f.vector_store_id = vector_store_id)

/-- `File.get_chat_files`: all file rows of a chat. -/
def File.get_chat_files (db : DB) (chat_id : Nat) : List File :=
  db.files.filter (fun f => f.chat_id = chat_id)

/-- `VectorStore.create`: inserts a vector-store row. -/
def VectorStore.create (db : DB) (user_id : Nat) (vector_store_id : String)
    (newId : Nat) : VectorStore × DB :=
  let v : VectorStore := { id := newId, user_id := user_id, vector_store_id := vector_store_id }
  (v, { db with vector_stores := db.vector_stores ++ [v] })

/-- `VectorStore.get_by_user_id`: the user's vector store, if any. -/
def VectorStore.get_by_user_id (db : DB) (user_id : Nat) : Option VectorStore :=
  db.vector_stores.find? (fun v => v.user_id = user_id)

/-! ## Token handling (src/auth/tools.py) -/

/-- `jose.jwt.encode(payload, key, algorithm)`. -/
def jwtEncode (key : String) (sub : Option String) (exp : Time) : Jwt :=
  { sub := sub, exp := exp, key := key }

/-- `jose.jwt.decode(token, key, algorithms, options)`: the signature check
(modelled as key equality) always runs; the expiry check runs unless
`verify_exp` is disabled.  A token is expired once the current time is past its
`exp` claim.  `none` models a raised `JWTError`. -/
def jwtDecode (t : Jwt) (key : String) (verifyExp : Bool) (now : Time) : Option Jwt :=
  if t.key ≠ key then none
  else if verifyExp ∧ t.exp < now then none
  else some t

/-- `get_password_hash`: bcrypt hashing, modelled as an injective tagging of the
password (no claim depends on the hash's internals). -/
def get_password_hash (password : String) : String := "bcrypt$" ++ password

/-- `verify_password`: checks a plain password against a hash. -/
def verify_password (plain : String) (hashed : String) : Bool :=
  get_password_hash plain = hashed

/-- `create_access_token` with the default expiry
(`utcnow() + timedelta(minutes=ACCESS_TOKEN_EXPIRE_MINUTES)`). -/
def create_access_token (sub : String) (now : Time) : Jwt :=
  jwtEncode ACCESS_TOKEN_SECRET_KEY (some sub) (now + accessTokenLifetime)

/-- `create_refresh_token` (`utcnow() + timedelta(days=REFRESH_TOKEN_EXPIRE_DAYS)`). -/
def create_refresh_token (sub : String) (now : Time) : Jwt :=
  jwtEncode REFRESH_TOKEN_SECRET_KEY (some sub) (now + refreshTokenLifetime)

/-- The single 401 raised throughout `get_current_user`. -/
def credentialsException : RouteError :=
  .http 401 "Не удалось подтвердить учетные данные"

/-- `get_current_user` (auth/tools.py lines 66-86), the auth guard: decodes the
bearer token verifying signature and expiry, requires a string `sub` claim, then
loads the user by username; every failure is the same 401. -/
def get_current_user (db : DB) (token : Jwt) (now : Time) : Res User :=
  match jwtDecode token ACCESS_TOKEN_SECRET_KEY true now with
  | none => .error credentialsException
  | some payload =>
    match payload.sub with
    | none => .error credentialsException
    | some username =>
      match User.get_by_username db username with
      | none => .error credentialsException
      | some u => .ok u

/-! ## Auth response schemas (src/auth/schemas.py) -/

/-- The `Token` response schema: pydantic declares `access_token`,
`refresh_token` and `token_type` as required fields. -/
structure Token where
  access_token : Jwt
  refresh_token : Jwt
  token_type : String
  deriving DecidableEq, Repr

/-- Constructing the pydantic `Token` model from keyword arguments: a field the
caller does not supply is `none`, and pydantic raises a `ValidationError` when
any required field is missing. -/
def Token.build (access_token : Option Jwt) (refresh_token : Option Jwt)
    (token_type : Option String) : Res Token :=
  match access_token, refresh_token, token_type with
  | some a, some r, some t =>
    .ok { access_token := a, refresh_token := r, token_type := t }
  | _, _, _ => .error .validationError

/-- The `UserResponse` schema. -/
structure UserResponse where
  id : Nat
  username : String
  email : Option String
  email_verified : Bool
  deriving DecidableEq, Repr

/-- `user_to_response` (src/auth/convert.py). -/
def user_to_response (u : User) : UserResponse :=
  { id := u.id, username := u.username, email := u.email, email_verified := u.email_verified }

/-- The `EmailVerificationResponse` schema. -/
structure EmailVerificationResponse where
  email : Option String
  email_verified : Bool
  message : String
  deriving DecidableEq, Repr

/-! ## Auth route handlers (src/auth/router.py) -/

/-- `register` (auth/router.py lines 35-67): hashes the password, creates the
user (re-raising the duplicate-username/email `HTTPException`s from
`User.create`), creates a remote vector store for the user (`remoteVectorStoreId`
models the id the remote call returns) and records it, then returns the user.
`newUserId`/`newVsRowId` model database-assigned primary keys. -/
def registerHandler (db : DB) (username password : String) (email : Option String)
    (newUserId : Nat) (remoteVectorStoreId : String) (newVsRowId : Nat) :
    Res (UserResponse × DB) :=
  match User.create db username (get_password_hash password) email newUserId with
  | .error e => .error e
  | .ok (user, db₁) =>
    let (_, db₂) := VectorStore.create db₁ user.id remoteVectorStoreId newVsRowId
    .ok (user_to_response user, db₂)

/-- `refresh_token` (auth/router.py lines 110-168): decodes the presented access
token with `verify_exp` disabled (signature still checked; `JWTError` becomes a
401), requires a truthy `sub`, loads the user and its stored refresh token
(missing either is a 401), verifies the stored refresh token's signature and
expiry (failure is a 401), then issues a fresh access token and builds the
`Token` response — supplying only `access_token` and `token_type`, so the
required `refresh_token` field of the schema is left out. -/
def refreshTokenHandler (db : DB) (access_token : Jwt) (now : Time) : Res Token :=
  match jwtDecode access_token ACCESS_TOKEN_SECRET_KEY false now with
  | none => .error (.http 401 "Невалидный access token")
  | some payload =>
    match payload.sub with
    | none => .error (.http 401 "Невалидный access token")
    | some username =>
      if username = "" then
        .error (.http 401 "Невалидный access token")
      else
        match User.get_by_username db username with
        | none => .error (.http 401 "Сессия истекла, требуется повторная авторизация")
        | some user =>
          match user.refresh_token with
          | none => .error (.http 401 "Сессия истекла, требуется повторная авторизация")
          | some stored =>
            match jwtDecode stored REFRESH_TOKEN_SECRET_KEY true now with
            | none => .error (.http 401 "Сессия истекла, требуется повторная авторизация")
            | some _ =>
              let newAccess := create_access_token user.username now
              Token.build (some newAccess) none (some "bearer")

/-- `verify_email` (auth/router.py lines 170-207): looks the user up by email
(404 when absent), then — the code's own comment marks where a verification-code
check would go, and none is performed — sets `email_verified` and answers with
the updated flag.  The supplied `code` is never inspected. -/
def verifyEmailHandler (db : DB) (email : String) (code : String) :
    Res (EmailVerificationResponse × DB) :=
  match User.get_by_email db email with
  | none => .error (.http 404 "Пользователь не найден")
  | some user =>
    let db' := User.verify_email_confirmation db user.id
    .ok ({ email := user.email, email_verified := true,
           message := "Email успешно подтвержден" }, db')

/-- `logout` (auth/router.py lines 209-228): clears the stored refresh token. -/
def logoutHandler (db : DB) (current_user : User) : Res String × DB :=
  (.ok "success", User.delete_refresh_token db current_user.username)

/-! ## Title generation (src/chat/tools.py) -/

/-- Python's `str.strip()` whitespace set. -/
def pyIsSpace (c : Char) : Bool :=
  c = ' ' || c = '\t' || c = '\n' || c = '\x0d' || c = '\x0b' || c = '\x0c'

/-- Python's `str.strip()`: drop leading and trailing whitespace. -/
def pyStrip (s : String) : String :=
  ⟨((s.data.dropWhile pyIsSpace).reverse.dropWhile pyIsSpace).reverse⟩

/-- Oracle for the remote exchange performed by `get_chat_title`: the outcome of
each remote step, in program order.  `none` models the step raising an
exception.  Each element of `listMessages` is a returned message's extracted
text `content[0].text.value`, itself `none` when that extraction raises. -/
structure TitleRemote where
  createThread : Option String
  postMessage : Option Unit
  runPoll : Option Unit
  listMessages : Option (List (Option String))
  deleteThread : Option Unit
  deriving DecidableEq, Repr

/-- `get_chat_title` (chat/tools.py lines 6-57): creates a disposable thread,
posts the dialogue as a prompt, runs the title-namer assistant, reads the most
recent message; an empty message list returns the fallback directly, otherwise
the thread is deleted and the extracted text is returned stripped.  Any raised
exception along the way is caught and yields the fallback "Новый чат". -/
def getChatTitle (user_message assistant_response : String) (r : TitleRemote) : String :=
  match r.createThread with
  | none => "Новый чат"
  | some _ =>
    match r.postMessage with
    | none => "Новый чат"
    | some _ =>
      match r.runPoll with
      | none => "Новый чат"
      | some _ =>
        match r.listMessages with
        | none => "Новый чат"
        | some [] => "Новый чат"
        | some (extracted :: _) =>
          match extracted with
          | none => "Новый чат"
          | some title =>
            match r.deleteThread with
            | none => "Новый чат"
            | some _ => pyStrip title

/-! ## Chat response schemas (src/chat/schemas.py) and route handlers
(src/chat/router.py) -/

/-- The `SendMessageResponse` schema. -/
structure SendMessageResponse where
  chat_id : Nat
  response : String
  deriving DecidableEq, Repr

/-- Modelled from the spec: the `UploadFileResponse` schema is imported by
`src/chat/router.py` but its definition is not among the provided sources; per
the upload route it carries a status and the stored file id. -/
structure UploadFileResponse where
  status : String
  file_id : String
  deriving DecidableEq, Repr

/-- A remote OpenAI call, for claims about which remote calls a handler
attempts. -/
inductive RemoteCall where
  | createVectorStore (userId : Nat)
  | uploadFileToVectorStore (vectorStoreId filename : String)
  deriving DecidableEq, Repr

/-- `send_message` (chat/router.py lines 39-104).  With no `chat_id` a remote
thread and a fresh chat are created, otherwise the chat is loaded (404 when
absent, 403 when not owned by the caller).  The user message is stored, the
remote assistant is invoked (`reply` models the processed reply returned by
`get_gpt_response`), a title is generated for a new chat, and the reply is
stored.  `newThreadId`, fresh row ids and the `utcnow()` readings
(`tChat`, `tMsg₁`, `tBump₁`, `tMsg₂`, `tBump₂`) are explicit parameters. -/
def sendMessageHandler (db : DB) (current_user : User) (content : String)
    (chat_id : Option Nat) (newThreadId : String)
    (newChatId newMsgId₁ newMsgId₂ : Nat)
    (tChat tMsg₁ tBump₁ tMsg₂ tBump₂ : Time)
    (reply : String) (titleRemote : TitleRemote) :
    Res SendMessageResponse × DB :=
  match chat_id with
  | none =>
    let (chat, db₁) := Chat.create db current_user.id "Новый чат" (some newThreadId) newChatId tChat
    let (_, db₂) := Message.create db₁ chat.id content false newMsgId₁ tMsg₁ tBump₁
    let title := getChatTitle content reply titleRemote
    let db₃ := Chat.update_title db₂ chat.id title
    let (_, db₄) := Message.create db₃ chat.id reply true newMsgId₂ tMsg₂ tBump₂
    (.ok { chat_id := chat.id, response := reply }, db₄)
  | some cid =>
    match Chat.get_by_id db cid with
    | none => (.error (.http 404 "Чат не найден"), db)
    | some chat =>
      if chat.user_id ≠ current_user.id then
        (.error (.http 403 "Нет доступа к этому чату"), db)
      else
        let (_, db₁) := Message.create db cid content false newMsgId₁ tMsg₁ tBump₁
        let (_, db₂) := Message.create db₁ cid reply true newMsgId₂ tMsg₂ tBump₂
        (.ok { chat_id := cid, response := reply }, db₂)

/-- `get_chats` (`GET /chat/list`): the caller's chats, paginated. -/
def getChatsHandler (db : DB) (current_user : User) (limit offset : Nat) :
    Res (List Chat × Nat) :=
  .ok (Chat.get_chats_paginated db current_user.id limit offset)

/-- `get_chat_messages` (chat/router.py lines 121-144): 404 when the chat is
absent, 403 when the caller does not own it, otherwise the chat's messages
paginated. -/
def getChatMessagesHandler (db : DB) (current_user : User) (chat_id : Nat)
    (limit offset : Nat) : Res (List Message × Nat) :=
  match Chat.get_by_id db chat_id with
  | none => .error (.http 404 "Чат не найден")
  | some chat =>
    if chat.user_id ≠ current_user.id then
      .error (.http 403 "Нет доступа к этому чату")
    else
      .ok (Message.get_chat_messages_paginated db chat_id limit offset)

/-- `delete_chat` (chat/router.py lines 146-177): 404 when the chat is absent,
403 when the caller does not own it; otherwise every file row of the caller's
vector store (looked up by user, not by chat) is deleted — remotely and then
from the database by remote file id — the remote thread is deleted, and finally
the chat row is deleted with its cascades. -/
def deleteChatHandler (db : DB) (current_user : User) (chat_id : Nat) :
    Res String × DB :=
  match Chat.get_by_id db chat_id with
  | none => (.error (.http 404 "Чат не найден"), db)
  | some chat =>
    if chat.user_id ≠ current_user.id then
      (.error (.http 403 "Нет доступа к этому чату"), db)
    else
      let db₁ :=
        match VectorStore.get_by_user_id db current_user.id with
        | none => db
        | some vs =>
          let victims := File.get_by_vector_store_id db vs.vector_store_id
          victims.foldl (fun acc f => File.delete acc f.file_id) db
      (.ok "success", Chat.delete db₁ chat_id)

/-- `reset_chat_context` (chat/router.py lines 179-204): 404 when the chat is
absent, 403 when the caller does not own it; otherwise the old remote thread is
deleted, a new one created (`newThreadId` models its id) and stored. -/
def resetChatHandler (db : DB) (current_user : User) (chat_id : Nat)
    (newThreadId : String) : Res String × DB :=
  match Chat.get_by_id db chat_id with
  | none => (.error (.http 404 "Чат не найден"), db)
  | some chat =>
    if chat.user_id ≠ current_user.id then
      (.error (.http 403 "Нет доступа к этому чату"), db)
    else
      (.ok "success", Chat.update_thread_id db chat_id newThreadId)

/-- Python's `str.lower()`, character by character. -/
def pyLower (s : String) : String := ⟨s.data.map Char.toLower⟩

/-- Python's `str.endswith(suffix)`: the final characters equal the suffix. -/
def pyEndsWith (s suffix : String) : Bool :=
  decide (s.data.reverse.take suffix.data.length = suffix.data.reverse)

/-- The fixed allow-list check of `upload_file`:
`file.filename.lower().endswith(('.pdf', '.docx', '.txt'))`. -/
def allowedUpload (filename : String) : Bool :=
  pyEndsWith (pyLower filename) ".pdf" || pyEndsWith (pyLower filename) ".docx" ||
    pyEndsWith (pyLower filename) ".txt"

/-- `upload_file` (chat/router.py lines 206-240).  A missing filename or a
disallowed extension raises `HTTPException(400)` — which the handler's own
blanket `except Exception` then catches and re-raises as `HTTPException(500)`
wrapping `str(e)` — before any remote call.  Otherwise the caller's vector
store is loaded (created remotely and locally on first use), the file content is
uploaded remotely (`remoteFileId` models the returned id), and a file row is
recorded against the requested `chat_id`; the chat's existence and ownership are
never checked.  The third component is the trace of attempted remote calls. -/
def uploadFileHandler (db : DB) (current_user : User) (chat_id : Nat)
    (filename : Option String) (remoteVectorStoreId remoteFileId : String)
    (newVsRowId newFileRowId : Nat) (now : Time) :
    Res UploadFileResponse × DB × List RemoteCall :=
  match filename with
  | none =>
    (.error (.http 500
        "Ошибка при загрузке файла: 400: Поддерживаются только TXT, PDF и DOCX файлы"),
      db, [])
  | some fname =>
    if ¬ allowedUpload fname then
      (.error (.http 500
          "Ошибка при загрузке файла: 400: Поддерживаются только TXT, PDF и DOCX файлы"),
        db, [])
    else
      match VectorStore.get_by_user_id db current_user.id with
      | none =>
        let (vs, db₁) := VectorStore.create db current_user.id remoteVectorStoreId newVsRowId
        let (f, db₂) := File.create db₁ remoteFileId chat_id vs.vector_store_id fname newFileRowId now
        (.ok { status := "success", file_id := f.file_id }, db₂,
          [.createVectorStore current_user.id,
           .uploadFileToVectorStore vs.vector_store_id fname])
      | some vs =>
        let (f, db₁) := File.create db remoteFileId chat_id vs.vector_store_id fname newFileRowId now
        (.ok { status := "success", file_id := f.file_id }, db₁,
          [.uploadFileToVectorStore vs.vector_store_id fname])

/-- `get_chat_files` (chat/router.py lines 242-249): returns the chat's file
rows converted to their filenames, with no existence or ownership check.
(`convert_to_filenames` is imported by the router but missing from the provided
sources; modelled from the spec's "list a chat's files" as projecting the
filenames.) -/
def getChatFilesHandler (db : DB) (current_user : User) (chat_id : Nat) :
    Res (List String) :=
  .ok ((File.get_chat_files db chat_id).map (fun f => f.filename))

/-! ## Spec-side helper definitions used in theorem statements -/

/-- The file rows that `delete_chat` targets besides the chat's own: every file
row of the requesting user's vector store. -/
def ownerStoreFiles (db : DB) (uid : Nat) : List File :=
  match VectorStore.get_by_user_id db uid with
  | none => []
  | some vs => File.get_by_vector_store_id db vs.vector_store_id

/-- Spec-side description of the title-generation exchange: the remote
assistant's reply when every step of the exchange succeeds and the disposable
conversation yields a reply, `none` when any step fails. -/
def titleFlowReply (r : TitleRemote) : Option String :=
  match r.createThread, r.postMessage, r.runPoll, r.listMessages, r.deleteThread with
  | some _, some _, some _, some (some t :: _), some _ => some t
  | _, _, _, _, _ => none

/-! ## Concrete fixtures -/

/-- Fixture: a registered user who owns two chats and a vector store. -/
def uAlice : User :=
  { id := 1, username := "alice", email := some "alice@example.com",
    email_verified := false, refresh_token := some (create_refresh_token "alice" 0),
    hashed_password := get_password_hash "alicepw" }

/-- Fixture: a second authenticated user owning nothing. -/
def uMallory : User :=
  { id := 2, username := "mallory", email := none, email_verified := false,
    refresh_token := none, hashed_password := get_password_hash "m" }

/-- Fixture: a chat owned by `uAlice`. -/
def chat10 : Chat :=
  { id := 10, user_id := 1, title := "Algebra", created_at := 5, updated_at := 6,
    thread_id := some "thread-10" }

/-- Fixture: a second chat owned by `uAlice`. -/
def chat11 : Chat :=
  { id := 11, user_id := 1, title := "Geometry", created_at := 7, updated_at := 8,
    thread_id := some "thread-11" }

/-- Fixture: a file uploaded to `chat10`, indexed in Alice's vector store. -/
def fileNotes : File :=
  { id := 1, file_id := "f-1", filename := "notes.txt", created_at := 6,
    vector_store_id := "vs-alice", chat_id := 10 }

/-- Fixture: a file uploaded to `chat11`, indexed in Alice's vector store. -/
def fileOther : File :=
  { id := 2, file_id := "f-2", filename := "other.pdf", created_at := 8,
    vector_store_id := "vs-alice", chat_id := 11 }

/-- Fixture: Alice's vector store. -/
def vsAlice : VectorStore := { id := 1, user_id := 1, vector_store_id := "vs-alice" }

/-- Fixture database. -/
def dbMain : DB :=
  { users := [uAlice, uMallory], chats := [chat10, chat11], messages := [],
    files := [fileNotes, fileOther], vector_stores := [vsAlice] }

/-- Fixture: Alice's access token issued at time 0; it expires at time 1800. -/
def tokAlice : Jwt := create_access_token "alice" 0

/-- Fixture: an access token with a valid signature and a live expiry whose
subject matches no registered user. -/
def tokGhost : Jwt := jwtEncode ACCESS_TOKEN_SECRET_KEY (some "ghost") 100

/-- Fixture chats for the pagination claim, owned by user 5, with distinct
update times. -/
def chat21 : Chat :=
  { id := 21, user_id := 5, title := "newest", created_at := 1, updated_at := 30,
    thread_id := none }

def chat22 : Chat :=
  { id := 22, user_id := 5, title := "middle", created_at := 1, updated_at := 20,
    thread_id := none }

def chat23 : Chat :=
  { id := 23, user_id := 5, title := "oldest", created_at := 1, updated_at := 10,
    thread_id := none }

/-- Fixture database for the pagination claim: user 5's three chats stored
shuffled, with another user's chat interleaved. -/
def dbPag : DB :=
  { users := [], chats := [chat22, chat10, chat23, chat21], messages := [],
    files := [], vector_stores := [] }

/-- Fixture: a fully successful title-generation exchange whose reply carries
surrounding whitespace. -/
def titleRemoteOk : TitleRemote :=
  { createThread := some "tmp-thread", postMessage := some (), runPoll := some (),
    listMessages := some [some "  Short Title  "], deleteThread := some () }

/-- Fixture: a title-generation exchange whose run step fails. -/
def titleRemoteFail : TitleRemote :=
  { createThread := some "tmp-thread", postMessage := some (), runPoll := none,
    listMessages := none, deleteThread := none }

/-! ## Theorems -/

/-- C1 counterexample: the claim says every chat-scoped operation by a non-owner
fails with Forbidden, but `get_chat_files` performs no ownership check: here
`uMallory` (user 2) successfully lists the files of `chat10`, which exists and
is owned by user 1. -/
theorem chat_files_leak_to_nonowner :
    Chat.get_by_id dbMain 10 = some chat10 ∧
    chat10.user_id ≠ uMallory.id ∧
    getChatFilesHandler dbMain uMallory 10 = .ok ["notes.txt"] :=
  ⟨rfl, by decide, rfl⟩

/-- C2: evaluation at the input on which the claim says `rotate` succeeds.  At
time 2000 Alice's access token (issued at 0, expiring at 1800) is expired but
carries a valid signature and subject, and her stored refresh token is valid and
unexpired — yet the handler returns a `ValidationError` (surfaced as a 500)
instead of a fresh access token, because the `Token` response schema requires a
`refresh_token` field the handler never supplies. -/
theorem rotate_success_path_raises_validation_error :
    jwtDecode tokAlice ACCESS_TOKEN_SECRET_KEY true 2000 = none ∧
    tokAlice.key = ACCESS_TOKEN_SECRET_KEY ∧
    tokAlice.sub = some "alice" ∧
    uAlice.refresh_token = some (create_refresh_token "alice" 0) ∧
    jwtDecode (create_refresh_token "alice" 0) REFRESH_TOKEN_SECRET_KEY true 2000 =
      some (create_refresh_token "alice" 0) ∧
    refreshTokenHandler dbMain tokAlice 2000 = .error .validationError :=
  ⟨rfl, rfl, rfl, rfl, rfl, rfl⟩

/-- C4: evaluation at a disallowed filename.  Uploading `report.exe` is rejected
before any remote call (the trace of remote calls is empty and the database is
untouched), but the handler's own `HTTPException(400)` is caught by its blanket
`except Exception` and re-raised as a 500, so the client sees InternalError, not
BadRequest. -/
theorem upload_exe_rejected_as_500_before_any_remote_call :
    uploadFileHandler dbMain uAlice 10 (some "report.exe") "vs-new" "file-new" 9 9 50 =
      (.error (.http 500
        "Ошибка при загрузке файла: 400: Поддерживаются только TXT, PDF и DOCX файлы"),
       dbMain, []) ∧
    allowedUpload "report.exe" = false ∧
    (uploadFileHandler dbMain uAlice 10 (some "report.exe") "vs-new" "file-new" 9 9 50).1.statusOf
      ≠ some 400 :=
  ⟨rfl, rfl, by decide⟩

/-- C5 counterexample: registering a duplicate username fails with status 400
(BadRequest), not 409 (Conflict) as the claim states. -/
theorem register_duplicate_yields_400_not_409 :
    registerHandler dbMain "alice" "pw" none 99 "vs-99" 99 =
      .error (.http 400 "Пользователь с таким именем уже существует") ∧
    (registerHandler dbMain "alice" "pw" none 99 "vs-99" 99).statusOf ≠ some 409 :=
  ⟨rfl, by decide⟩

/-- C6 counterexample: deleting `chat10` also deletes the file row of `chat11`
— another chat of the same user, which itself survives — because `delete_chat`
removes every file row of the owner's vector store, not only the deleted
chat's. -/
theorem delete_chat_removes_other_chats_file_rows :
    fileOther ∈ dbMain.files ∧ fileOther.chat_id = 11 ∧
    chat11 ∈ (deleteChatHandler dbMain uAlice 10).2.chats ∧
    (deleteChatHandler dbMain uAlice 10).1 = .ok "success" ∧
    fileOther ∉ (deleteChatHandler dbMain uAlice 10).2.files :=
  ⟨by decide, rfl, by decide, rfl, by decide⟩

/-- C7 counterexample: `tokGhost` has a valid signature, is unexpired at time 0
and carries a subject, yet the auth guard rejects it with Unauthorized because
no user named "ghost" exists — so the claimed "exactly when" enumeration of
failure causes is incomplete. -/
theorem auth_guard_rejects_valid_token_of_unknown_user :
    tokGhost.key = ACCESS_TOKEN_SECRET_KEY ∧
    ¬ (tokGhost.exp < 0) ∧
    tokGhost.sub ≠ none ∧
    get_current_user dbMain tokGhost 0 = .error credentialsException :=
  ⟨rfl, by decide, by decide, rfl⟩

/-- C3: for a registered email, `verify_email` succeeds and sets
`email_verified`, and the supplied verification code is never checked — the
handler's outcome (result and final state) is literally independent of the code
argument. -/
theorem verify_email_ignores_code (db : DB) (email : String) (u : User)
    (h : User.get_by_email db email = some u) (code₁ code₂ : String) :
    verifyEmailHandler db email code₁ = verifyEmailHandler db email code₂ ∧
    verifyEmailHandler db email code₁ =
      .ok ({ email := u.email, email_verified := true,
             message := "Email успешно подтвержден" },
        User.verify_email_confirmation db u.id) ∧
    ∀ v ∈ (User.verify_email_confirmation db u.id).users, v.id = u.id →
      v.email_verified = true := by
  refine ⟨rfl, by simp [verifyEmailHandler, h], ?_⟩
  intro v hv hid
  simp only [User.verify_email_confirmation, List.mem_map] at hv
  obtain ⟨w, hw, rfl⟩ := hv
  by_cases hwid : w.id = u.id
  · rw [if_pos hwid]
  · rw [if_neg hwid] at hid
    exact absurd hid hwid

/-- C3 witness: concrete instantiation at Alice's registered email with two
different codes. -/
theorem verify_email_ignores_code_witness :
    User.get_by_email dbMain "alice@example.com" = some uAlice ∧
    (verifyEmailHandler dbMain "alice@example.com" "0000" =
        verifyEmailHandler dbMain "alice@example.com" "1234" ∧
      verifyEmailHandler dbMain "alice@example.com" "0000" =
        .ok ({ email := uAlice.email, email_verified := true,
               message := "Email успешно подтвержден" },
          User.verify_email_confirmation dbMain uAlice.id) ∧
      ∀ v ∈ (User.verify_email_confirmation dbMain uAlice.id).users, v.id = uAlice.id →
        v.email_verified = true) :=
  ⟨rfl, verify_email_ignores_code dbMain "alice@example.com" uAlice rfl "0000" "1234"⟩

/-- C9: appending a message to an existing chat creates the message with the
first clock reading and bumps the chat's `updated_at` to the second, so with a
monotone clock the chat's `updated_at` ends at least at the message's
`created_at`. -/
theorem append_message_bumps_updated_at (db : DB) (cid : Nat) (content : String)
    (isBot : Bool) (newId : Nat) (tMsg tBump : Time) (c : Chat)
    (hc : Chat.get_by_id db cid = some c) (hle : tMsg ≤ tBump) :
    ∃ c' ∈ (Message.create db cid content isBot newId tMsg tBump).2.chats,
      c'.id = cid ∧
      (Message.create db cid content isBot newId tMsg tBump).1.created_at ≤
        c'.updated_at := by
  have hcid : c.id = cid := by
    have := List.find?_some hc
    simpa using this
  have hcmem : c ∈ db.chats := List.mem_of_find?_eq_some hc
  have hc' : Chat.get_by_id
      { db with messages := db.messages ++
          [{ id := newId, chat_id := cid, content := content,
             created_at := tMsg, is_sent_by_bot := isBot }] } cid = some c := hc
  refine ⟨{ c with updated_at := tBump }, ?_, hcid, ?_⟩
  · show { c with updated_at := tBump } ∈
      (Message.create db cid content isBot newId tMsg tBump).2.chats
    simp only [Message.create]
    rw [hc']
    exact List.mem_map.mpr ⟨c, hcmem, by rw [if_pos hcid]⟩
  · show (Message.create db cid content isBot newId tMsg tBump).1.created_at ≤ tBump
    simp only [Message.create]
    rw [hc']
    exact hle

/-- C9 witness: concrete instantiation on `chat10` with clock readings 100 and
101. -/
theorem append_message_bumps_updated_at_witness :
    Chat.get_by_id dbMain 10 = some chat10 ∧ (100 : Nat) ≤ 101 ∧
    ∃ c' ∈ (Message.create dbMain 10 "hi" false 3 100 101).2.chats,
      c'.id = 10 ∧
      (Message.create dbMain 10 "hi" false 3 100 101).1.created_at ≤ c'.updated_at :=
  ⟨rfl, by decide,
   append_message_bumps_updated_at dbMain 10 "hi" false 3 100 101 chat10 rfl (by decide)⟩

/-- C10: `get_chat_title` returns the fixed fallback "Новый чат" (the source's
fallback title, glossed "New chat" by the spec) whenever any step of the remote
exchange fails — including when the disposable conversation yields no reply —
and otherwise returns the remote assistant's reply stripped of surrounding
whitespace, after deleting the disposable thread. -/
theorem generate_title_fallback_or_stripped_reply (um ar : String) (r : TitleRemote) :
    (titleFlowReply r = none → getChatTitle um ar r = "Новый чат") ∧
    ∀ t, titleFlowReply r = some t → getChatTitle um ar r = pyStrip t := by
  obtain ⟨ct, pm, rp, lm, dt⟩ := r
  cases ct with
  | none => exact ⟨fun _ => rfl, fun t ht => by simp [titleFlowReply] at ht⟩
  | some th =>
    cases pm with
    | none => exact ⟨fun _ => rfl, fun t ht => by simp [titleFlowReply] at ht⟩
    | some upm =>
      cases rp with
      | none => exact ⟨fun _ => rfl, fun t ht => by simp [titleFlowReply] at ht⟩
      | some urp =>
        cases lm with
        | none => exact ⟨fun _ => rfl, fun t ht => by simp [titleFlowReply] at ht⟩
        | some l =>
          cases l with
          | nil => exact ⟨fun _ => rfl, fun t ht => by simp [titleFlowReply] at ht⟩
          | cons x tl =>
            cases x with
            | none => exact ⟨fun _ => rfl, fun t ht => by simp [titleFlowReply] at ht⟩
            | some reply =>
              cases dt with
              | none => exact ⟨fun _ => rfl, fun t ht => by simp [titleFlowReply] at ht⟩
              | some udt =>
                refine ⟨fun h => by simp [titleFlowReply] at h, fun t ht => ?_⟩
                have hrt : reply = t := by simpa [titleFlowReply] using ht
                subst hrt
                rfl

/-- C10 witness: a fully successful exchange yields the stripped reply, and an
exchange whose run step fails yields the fallback. -/
theorem generate_title_fallback_or_stripped_reply_witness :
    titleFlowReply titleRemoteOk = some "  Short Title  " ∧
    getChatTitle "hi" "hello" titleRemoteOk = pyStrip "  Short Title  " ∧
    pyStrip "  Short Title  " = "Short Title" ∧
    titleFlowReply titleRemoteFail = none ∧
    getChatTitle "hi" "hello" titleRemoteFail = "Новый чат" :=
  ⟨rfl,
   (generate_title_fallback_or_stripped_reply "hi" "hello" titleRemoteOk).2 _ rfl,
   rfl, rfl,
   (generate_title_fallback_or_stripped_reply "hi" "hello" titleRemoteFail).1 rfl⟩

/-- C1 (amended): for a non-owner of an existing chat, sending a message to it,
listing its messages, deleting it and resetting it all fail with Forbidden and
leave the database untouched — but the two remaining chat-scoped operations
perform no ownership check: listing the chat's files succeeds and returns its
filenames, and uploading an allowed file to the chat succeeds. -/
theorem chat_ownership_enforcement_amended (db : DB) (user : User) (cid : Nat)
    (chat : Chat) (hchat : Chat.get_by_id db cid = some chat)
    (hne : chat.user_id ≠ user.id) :
    (∀ content newThreadId newChatId nm₁ nm₂ tc t₁ t₂ t₃ t₄ reply tr,
       sendMessageHandler db user content (some cid) newThreadId newChatId nm₁ nm₂
           tc t₁ t₂ t₃ t₄ reply tr =
         (.error (.http 403 "Нет доступа к этому чату"), db)) ∧
    (∀ limit offset, getChatMessagesHandler db user cid limit offset =
       .error (.http 403 "Нет доступа к этому чату")) ∧
    deleteChatHandler db user cid = (.error (.http 403 "Нет доступа к этому чату"), db) ∧
    (∀ nt, resetChatHandler db user cid nt =
       (.error (.http 403 "Нет доступа к этому чату"), db)) ∧
    getChatFilesHandler db user cid =
      .ok ((File.get_chat_files db cid).map (fun f => f.filename)) ∧
    (∀ fname rvs rfid nv nf now, allowedUpload fname = true →
       ∃ resp db' trace,
         uploadFileHandler db user cid (some fname) rvs rfid nv nf now =
           (.ok resp, db', trace)) := by
  have hsplit : ∀ (X : Res UploadFileResponse × DB × List RemoteCall)
      (r : UploadFileResponse), X.1 = .ok r →
      ∃ resp db' trace, X = (.ok resp, db', trace) :=
    fun X r h => ⟨r, X.2.1, X.2.2, by rw [← h]⟩
  refine ⟨?_, ?_, ?_, ?_, rfl, ?_⟩
  · intro content nt nc nm₁ nm₂ tc t₁ t₂ t₃ t₄ reply tr
    simp [sendMessageHandler, hchat, hne]
  · intro limit offset
    simp [getChatMessagesHandler, hchat, hne]
  · simp [deleteChatHandler, hchat, hne]
  · intro nt
    simp [resetChatHandler, hchat, hne]
  · intro fname rvs rfid nv nf now hallow
    cases hvs : VectorStore.get_by_user_id db user.id with
    | none =>
      exact hsplit _ { status := "success", file_id := rfid }
        (by simp [uploadFileHandler, hallow, hvs, VectorStore.create, File.create])
    | some vs =>
      exact hsplit _ { status := "success", file_id := rfid }
        (by simp [uploadFileHandler, hallow, hvs, File.create])

/-- C1 witness: concrete instantiation — `uMallory` is not the owner of
`chat10`. -/
theorem chat_ownership_enforcement_amended_witness :
    Chat.get_by_id dbMain 10 = some chat10 ∧
    ((∀ content newThreadId newChatId nm₁ nm₂ tc t₁ t₂ t₃ t₄ reply tr,
       sendMessageHandler dbMain uMallory content (some 10) newThreadId newChatId nm₁ nm₂
           tc t₁ t₂ t₃ t₄ reply tr =
         (.error (.http 403 "Нет доступа к этому чату"), dbMain)) ∧
    (∀ limit offset, getChatMessagesHandler dbMain uMallory 10 limit offset =
       .error (.http 403 "Нет доступа к этому чату")) ∧
    deleteChatHandler dbMain uMallory 10 =
      (.error (.http 403 "Нет доступа к этому чату"), dbMain) ∧
    (∀ nt, resetChatHandler dbMain uMallory 10 nt =
       (.error (.http 403 "Нет доступа к этому чату"), dbMain)) ∧
    getChatFilesHandler dbMain uMallory 10 =
      .ok ((File.get_chat_files dbMain 10).map (fun f => f.filename)) ∧
    (∀ fname rvs rfid nv nf now, allowedUpload fname = true →
       ∃ resp db' trace,
         uploadFileHandler dbMain uMallory 10 (some fname) rvs rfid nv nf now =
           (.ok resp, db', trace))) :=
  ⟨rfl, chat_ownership_enforcement_amended dbMain uMallory 10 chat10 rfl (by decide)⟩

/-- C5 (amended): registration with a duplicate username or duplicate email
fails with status 400 (BadRequest, not the claimed 409 Conflict); registration
with a fresh username and a fresh or absent email succeeds and yields a user
with `email_verified = false`. -/
theorem register_amended (db : DB) (username password : String) (email : Option String)
    (nid : Nat) (vsid : String) (vsrow : Nat) :
    ((User.get_by_username db username).isSome →
       registerHandler db username password email nid vsid vsrow =
         .error (.http 400 "Пользователь с таким именем уже существует")) ∧
    (∀ e, User.get_by_username db username = none → email = some e →
       (User.get_by_email db e).isSome →
       registerHandler db username password email nid vsid vsrow =
         .error (.http 400 "Email уже используется")) ∧
    (User.get_by_username db username = none →
       (match email with
        | some e => User.get_by_email db e = none
        | none => True) →
       ∃ db', registerHandler db username password email nid vsid vsrow =
         .ok ({ id := nid, username := username, email := email,
                email_verified := false }, db')) := by
  refine ⟨?_, ?_, ?_⟩
  · intro h
    obtain ⟨u, hu⟩ := Option.isSome_iff_exists.mp h
    simp [registerHandler, User.create, hu]
  · intro e hnone he hsome
    subst he
    obtain ⟨u, hu⟩ := Option.isSome_iff_exists.mp hsome
    simp [registerHandler, User.create, hnone, hu]
  · intro hnone hemail
    cases email with
    | none =>
      refine ⟨{ db with
          users := db.users ++
            [⟨nid, username, none, false, none, get_password_hash password⟩],
          vector_stores := db.vector_stores ++ [⟨vsrow, nid, vsid⟩] }, ?_⟩
      simp [registerHandler, User.create, hnone, user_to_response, VectorStore.create]
    | some e =>
      simp only at hemail
      refine ⟨{ db with
          users := db.users ++
            [⟨nid, username, some e, false, none, get_password_hash password⟩],
          vector_stores := db.vector_stores ++ [⟨vsrow, nid, vsid⟩] }, ?_⟩
      simp [registerHandler, User.create, hnone, hemail, user_to_response,
        VectorStore.create]

/-- C5 witness: a fresh registration succeeds with `email_verified = false`, and
a duplicate-username registration fails with 400. -/
theorem register_amended_witness :
    (∃ db', registerHandler dbMain "carol" "pw" (some "carol@example.com") 3 "vs-3" 3 =
       .ok ({ id := 3, username := "carol", email := some "carol@example.com",
              email_verified := false }, db')) ∧
    registerHandler dbMain "mallory" "pw" none 4 "vs-4" 4 =
      .error (.http 400 "Пользователь с таким именем уже существует") :=
  ⟨(register_amended dbMain "carol" "pw" (some "carol@example.com") 3 "vs-3" 3).2.2
      rfl rfl,
   (register_amended dbMain "mallory" "pw" none 4 "vs-4" 4).1 (by decide)⟩

/-- C7 (amended): the auth guard fails with Unauthorized exactly when the
token's signature is invalid, the token is expired, the subject claim is
missing, or — the case the original claim omits — the subject names no
registered user; a token verified immediately after issuance for an existing
user is accepted and yields that user, and the same token is rejected once its
configured expiry has elapsed. -/
theorem auth_guard_amended (db : DB) (t : Jwt) (now : Time) :
    (get_current_user db t now = .error credentialsException ↔
      t.key ≠ ACCESS_TOKEN_SECRET_KEY ∨ t.exp < now ∨ t.sub = none ∨
        ∃ s, t.sub = some s ∧ User.get_by_username db s = none) ∧
    (∀ u : User, User.get_by_username db u.username = some u → ∀ issuedAt,
       get_current_user db (create_access_token u.username issuedAt) issuedAt = .ok u) ∧
    (∀ s issuedAt, issuedAt + accessTokenLifetime < now →
       get_current_user db (create_access_token s issuedAt) now =
         .error credentialsException) := by
  refine ⟨?_, ?_, ?_⟩
  · by_cases hk : t.key = ACCESS_TOKEN_SECRET_KEY
    · by_cases he : t.exp < now
      · simp [get_current_user, jwtDecode, hk, he]
      · cases hsub : t.sub with
        | none => simp [get_current_user, jwtDecode, hk, he, hsub]
        | some s =>
          cases hu : User.get_by_username db s with
          | none => simp [get_current_user, jwtDecode, hk, he, hsub, hu]
          | some u => simp [get_current_user, jwtDecode, hk, he, hsub, hu]
    · simp [get_current_user, jwtDecode, hk]
  · intro u hu issuedAt
    have hexp : ¬ (issuedAt + accessTokenLifetime < issuedAt) :=
      Nat.not_lt.mpr (Nat.le_add_right _ _)
    simp [get_current_user, jwtDecode, create_access_token, jwtEncode, hexp, hu]
  · intro s issuedAt h
    simp [get_current_user, jwtDecode, create_access_token, jwtEncode, h]

/-- C7 witness: Alice's freshly issued token is accepted at issuance time and
rejected at time 2000 (past its 1800 expiry), and the failure-characterisation
holds at `tokGhost`. -/
theorem auth_guard_amended_witness :
    get_current_user dbMain (create_access_token "alice" 0) 0 = .ok uAlice ∧
    get_current_user dbMain (create_access_token "alice" 0) 2000 =
      .error credentialsException ∧
    (get_current_user dbMain tokGhost 0 = .error credentialsException ↔
      tokGhost.key ≠ ACCESS_TOKEN_SECRET_KEY ∨ tokGhost.exp < 0 ∨ tokGhost.sub = none ∨
        ∃ s, tokGhost.sub = some s ∧ User.get_by_username dbMain s = none) :=
  ⟨(auth_guard_amended dbMain (create_access_token "alice" 0) 0).2.1 uAlice rfl 0,
   (auth_guard_amended dbMain (create_access_token "alice" 0) 2000).2.2 "alice" 0
     (by decide),
   (auth_guard_amended dbMain tokGhost 0).1⟩

/-- Deleting a list of files by remote id, one after the other, keeps exactly
the file rows whose remote id matches none of them. -/
theorem foldl_file_delete_files (victims : List File) :
    ∀ (db : DB) (g : File),
      g ∈ (victims.foldl (fun acc f => File.delete acc f.file_id) db).files ↔
        g ∈ db.files ∧ ∀ v ∈ victims, g.file_id ≠ v.file_id := by
  induction victims with
  | nil => intro db g; simp
  | cons v vs ih =>
    intro db g
    rw [List.foldl_cons, ih (File.delete db v.file_id) g]
    simp only [File.delete, List.mem_filter, List.forall_mem_cons, decide_not,
      Bool.not_eq_true', decide_eq_false_iff_not]
    tauto

/-- Deleting file rows touches no other table. -/
theorem foldl_file_delete_frame (victims : List File) :
    ∀ db : DB,
      (victims.foldl (fun acc f => File.delete acc f.file_id) db).users = db.users ∧
      (victims.foldl (fun acc f => File.delete acc f.file_id) db).chats = db.chats ∧
      (victims.foldl (fun acc f => File.delete acc f.file_id) db).messages = db.messages ∧
      (victims.foldl (fun acc f => File.delete acc f.file_id) db).vector_stores =
        db.vector_stores := by
  induction victims with
  | nil => intro db; exact ⟨rfl, rfl, rfl, rfl⟩
  | cons v vs ih =>
    intro db
    rw [List.foldl_cons]
    exact ih (File.delete db v.file_id)

/-- C6 (amended): deleting an owned chat succeeds; it removes exactly that
chat's messages, exactly that chat row, and — beyond the claim — every file row
whose remote id belongs to a file of the owner's vector store, so the file
records of the user's other chats are deleted as well; a file row survives iff
it is not the deleted chat's and shares no remote id with the owner's
vector-store files. -/
theorem delete_chat_amended (db : DB) (user : User) (cid : Nat) (chat : Chat)
    (hchat : Chat.get_by_id db cid = some chat) (hown : chat.user_id = user.id) :
    (deleteChatHandler db user cid).1 = .ok "success" ∧
    (∀ m : Message, m ∈ (deleteChatHandler db user cid).2.messages ↔
       m ∈ db.messages ∧ m.chat_id ≠ cid) ∧
    (∀ c : Chat, c ∈ (deleteChatHandler db user cid).2.chats ↔
       c ∈ db.chats ∧ c.id ≠ cid) ∧
    (∀ f : File, f ∈ (deleteChatHandler db user cid).2.files ↔
       f ∈ db.files ∧ f.chat_id ≠ cid ∧
       ∀ g ∈ ownerStoreFiles db user.id, f.file_id ≠ g.file_id) := by
  cases hvs : VectorStore.get_by_user_id db user.id with
  | none =>
    have hred : deleteChatHandler db user cid = (.ok "success", Chat.delete db cid) := by
      simp [deleteChatHandler, hchat, hown, hvs]
    rw [hred]
    refine ⟨rfl, ?_, ?_, ?_⟩
    · intro m; simp [Chat.delete, List.mem_filter]
    · intro c; simp [Chat.delete, List.mem_filter]
    · intro f; simp [Chat.delete, List.mem_filter, ownerStoreFiles, hvs]
  | some vs =>
    have hred : deleteChatHandler db user cid =
        (.ok "success",
         Chat.delete ((File.get_by_vector_store_id db vs.vector_store_id).foldl
           (fun acc f => File.delete acc f.file_id) db) cid) := by
      simp [deleteChatHandler, hchat, hown, hvs]
    rw [hred]
    have hframe := foldl_file_delete_frame (File.get_by_vector_store_id db vs.vector_store_id) db
    refine ⟨rfl, ?_, ?_, ?_⟩
    · intro m
      simp [Chat.delete, List.mem_filter, hframe.2.2.1]
    · intro c
      simp [Chat.delete, List.mem_filter, hframe.2.1]
    · intro f
      simp only [Chat.delete, List.mem_filter,
        foldl_file_delete_files (File.get_by_vector_store_id db vs.vector_store_id) db f,
        ownerStoreFiles, hvs, decide_not, Bool.not_eq_true', decide_eq_false_iff_not]
      tauto

/-- C6 witness: concrete instantiation — Alice deletes her own `chat10`. -/
theorem delete_chat_amended_witness :
    Chat.get_by_id dbMain 10 = some chat10 ∧ chat10.user_id = uAlice.id ∧
    ((deleteChatHandler dbMain uAlice 10).1 = .ok "success" ∧
    (∀ m : Message, m ∈ (deleteChatHandler dbMain uAlice 10).2.messages ↔
       m ∈ dbMain.messages ∧ m.chat_id ≠ 10) ∧
    (∀ c : Chat, c ∈ (deleteChatHandler dbMain uAlice 10).2.chats ↔
       c ∈ dbMain.chats ∧ c.id ≠ 10) ∧
    (∀ f : File, f ∈ (deleteChatHandler dbMain uAlice 10).2.files ↔
       f ∈ dbMain.files ∧ f.chat_id ≠ 10 ∧
       ∀ g ∈ ownerStoreFiles dbMain uAlice.id, f.file_id ≠ g.file_id)) :=
  ⟨rfl, rfl, delete_chat_amended dbMain uAlice 10 chat10 rfl rfl⟩

/-- C8: `get_chats_paginated` reports as total the count of the user's chats
and returns a window of them sorted by update time descending, no longer than
`limit`, drawn from the user's chats; and for a user owning exactly three chats
with distinct update times, `limit=1, offset=1` returns exactly the
second-most-recently-updated one with total 3. -/
theorem list_chats_pagination :
    (∀ (db : DB) (uid limit offset : Nat),
       (Chat.get_chats_paginated db uid limit offset).2 =
         (db.chats.filter (fun c => c.user_id = uid)).length ∧
       List.Sorted chatLE (Chat.get_chats_paginated db uid limit offset).1 ∧
       (Chat.get_chats_paginated db uid limit offset).1.length ≤ limit ∧
       ∀ c ∈ (Chat.get_chats_paginated db uid limit offset).1,
         c ∈ db.chats ∧ c.user_id = uid) ∧
    (∀ (db : DB) (uid : Nat) (c₁ c₂ c₃ : Chat),
       List.Perm (db.chats.filter (fun c => c.user_id = uid)) [c₁, c₂, c₃] →
       c₂.updated_at < c₁.updated_at → c₃.updated_at < c₂.updated_at →
       Chat.get_chats_paginated db uid 1 1 = ([c₂], 3)) := by
  constructor
  · intro db uid limit offset
    have hs : List.Sorted chatLE
        ((db.chats.filter (fun c => c.user_id = uid)).insertionSort chatLE) :=
      List.sorted_insertionSort chatLE _
    refine ⟨rfl, ?_, ?_, ?_⟩
    · exact hs.sublist ((List.take_sublist _ _).trans (List.drop_sublist _ _))
    · exact List.length_take_le _ _
    · intro c hc
      have h₁ := List.mem_of_mem_drop (List.mem_of_mem_take hc)
      have h₂ : c ∈ db.chats.filter (fun c => c.user_id = uid) :=
        (List.mem_insertionSort chatLE).mp h₁
      have h₃ := List.mem_filter.mp h₂
      exact ⟨h₃.1, by simpa using h₃.2⟩
  · intro db uid c₁ c₂ c₃ hp h12 h23
    have hsort : List.Sorted chatLE
        ((db.chats.filter (fun c => c.user_id = uid)).insertionSort chatLE) :=
      List.sorted_insertionSort chatLE _
    have hperm : List.Perm
        ((db.chats.filter (fun c => c.user_id = uid)).insertionSort chatLE)
        [c₁, c₂, c₃] :=
      (List.perm_insertionSort chatLE _).trans hp
    have hne : List.Pairwise (fun a b : Chat => a.updated_at ≠ b.updated_at)
        [c₁, c₂, c₃] := by
      refine List.Pairwise.cons (fun b hb => ?_)
        (List.Pairwise.cons (fun b hb => ?_) ?_)
      · rcases List.mem_cons.mp hb with rfl | hb'
        · exact Nat.ne_of_gt h12
        · rcases List.mem_singleton.mp hb' with rfl
          exact Nat.ne_of_gt (h23.trans h12)
      · rcases List.mem_singleton.mp hb with rfl
        exact Nat.ne_of_gt h23
      · simp
    have hneS : List.Pairwise (fun a b : Chat => a.updated_at ≠ b.updated_at)
        ((db.chats.filter (fun c => c.user_id = uid)).insertionSort chatLE) :=
      (hperm.pairwise_iff (fun h => h.symm)).mpr hne
    have hstrict : List.Sorted chatGT'
        ((db.chats.filter (fun c => c.user_id = uid)).insertionSort chatLE) :=
      (List.pairwise_and_iff.mpr ⟨hsort, hneS⟩).imp
        (fun h => Or.inl (Nat.lt_of_le_of_ne h.1 h.2.symm))
    have htgt : List.Sorted chatGT' [c₁, c₂, c₃] := by
      refine List.Pairwise.cons (fun b hb => ?_)
        (List.Pairwise.cons (fun b hb => ?_) ?_)
      · rcases List.mem_cons.mp hb with rfl | hb'
        · exact Or.inl h12
        · rcases List.mem_singleton.mp hb' with rfl
          exact Or.inl (h23.trans h12)
      · rcases List.mem_singleton.mp hb with rfl
        exact Or.inl h23
      · simp
    have heq : (db.chats.filter (fun c => c.user_id = uid)).insertionSort chatLE =
        [c₁, c₂, c₃] :=
      List.eq_of_perm_of_sorted hperm hstrict htgt
    have hlen : (db.chats.filter (fun c => c.user_id = uid)).length = 3 := by
      simpa using hp.length_eq
    simp only [Chat.get_chats_paginated]
    rw [heq, hlen]
    rfl

/-- C8 witness: user 5 owns exactly the three fixture chats (stored shuffled,
with another user's chat interleaved); page `limit=1, offset=1` is the
second-most-recently-updated chat with total 3. -/
theorem list_chats_pagination_witness :
    Chat.get_chats_paginated dbPag 5 1 1 = ([chat22], 3) :=
  list_chats_pagination.2 dbPag 5 chat21 chat22 chat23 (by decide) (by decide) (by decide)

end Regulus
